import Mathlib

/-!
Shallow embedding of `search_engine_query_parser.py`:
`SearchQueryParenthesisedParser` (a character-level scan that splits a query
into an alternating operator/pattern list, treating one level of parentheses
as clause boundaries) and `SpiresToInvenioSyntaxConverter` (a staged text
rewriting of the legacy SPIRES dialect into Invenio syntax).

Queries are modelled as lists of characters.  Python regular expressions are
modelled by hand-written matchers that follow the concrete patterns compiled
in the source (leftmost scanning, greedy or lazy repetition as each pattern
requires, case-insensitive comparison, word boundaries over `[a-zA-Z0-9_]`).
-/

set_option maxRecDepth 100000
set_option maxHeartbeats 1600000

namespace InvenioQP

/-- Strings are modelled as lists of characters. -/
abbrev Str := List Char

/-- Whitespace characters of Python `str.isspace` / `str.strip`. -/
def pyIsSpace (c : Char) : Bool :=
  c == ' ' || c == '\t' || c == '\n' || c == '\r' || c == '\x0b' || c == '\x0c'

/-- Python `s.strip()`. -/
def pyStrip (s : Str) : Str :=
  ((s.dropWhile pyIsSpace).reverse.dropWhile pyIsSpace).reverse

/-- Python slice `s[b:e]`. -/
def sliceStr (s : Str) (b e : Nat) : Str := (s.take e).drop b

/-- Character of `s` at index `i` (space when out of range; uses are in range). -/
def charAt (s : Str) (i : Nat) : Char := s.getD i ' '

/-- Python `s.lower()` (ASCII inputs). -/
def lowerStr (s : Str) : Str := s.map Char.toLower

/-- Case-insensitive test that `lit` is a prefix of `s`. -/
def ciPrefix : Str → Str → Bool
  | _, [] => true
  | [], _ :: _ => false
  | c :: cs, d :: ds => c.toLower == d.toLower && ciPrefix cs ds

/-- Case-insensitive match of the literal `lit` at position `i` of `s`. -/
def ciMatchAt (s : Str) (i : Nat) (lit : Str) : Bool := ciPrefix (s.drop i) lit

/-- Python regex word character `\w` (no `re.UNICODE`): `[a-zA-Z0-9_]`. -/
def isWordChar (c : Char) : Bool := c.isAlphanum || c == '_'

/-- Whether position `i` of `s` holds a word character. -/
def isWordAt (s : Str) (i : Nat) : Bool :=
  match s.get? i with
  | some c => isWordChar c
  | none => false

/-- Python regex `\b` at position `i` of `s`. -/
def hasBoundary (s : Str) (i : Nat) : Bool :=
  if i == 0 then isWordAt s 0 else isWordAt s (i - 1) != isWordAt s i

/-- Length of the maximal whitespace run starting at `i` (greedy `\s*`). -/
def wsRun (s : Str) (i : Nat) : Nat := ((s.drop i).takeWhile pyIsSpace).length

/-- Length of the maximal word-character run starting at `i` (greedy `\w*`). -/
def wordRun (s : Str) (i : Nat) : Nat := ((s.drop i).takeWhile isWordChar).length

/-- Python regex `$`: end of string, or just before a final newline. -/
def dollarAt (s : Str) (i : Nat) : Bool :=
  i == s.length || (i + 1 == s.length && charAt s i == '\n')

/-!
The quotes regex compiled by both classes:
`[^\\](".*?[^\\]")|[^\\]('.*?[^\\]')`.
A match needs a non-backslash character, an opening quote, a lazy non-newline
body, a non-backslash character and the closing quote; `finditer` scans
left to right and resumes after each match's end.
-/

/-- No newline among positions `lo..hi` of `s` (regex `.` excludes newline). -/
def noNewlineBetween (s : Str) (lo hi : Nat) : Bool :=
  ((s.take (hi + 1)).drop lo).all (fun c => c != '\n')

/-- Smallest closing-quote position `j ≥` the start argument for quote
character `q` opened via the quotes regex at `i` (lazy `.*?[^\\]q`). -/
def findQuoteCloseAux (s : Str) (q : Char) (i : Nat) : Nat → Nat → Option Nat
  | _, 0 => none
  | j, fuel + 1 =>
    if s.length ≤ j then none
    else if charAt s j == q && charAt s (j - 1) != '\\' && noNewlineBetween s (i + 2) (j - 2) then
      some j
    else findQuoteCloseAux s q i (j + 1) fuel

/-- Match of the quotes regex starting at position `i`; returns the exclusive
end of the match (one past the closing quote). -/
def matchQuotesAt (s : Str) (i : Nat) : Option Nat :=
  if i + 1 < s.length && charAt s i != '\\' &&
      (charAt s (i + 1) == '"' || charAt s (i + 1) == '\'') then
    match findQuoteCloseAux s (charAt s (i + 1)) i (i + 3) s.length with
    | some j => some (j + 1)
    | none => none
  else none

/-- `finditer` of the quotes regex: non-overlapping spans, leftmost first. -/
def findSpansAux (s : Str) : Nat → Nat → List (Nat × Nat)
  | _, 0 => []
  | i, fuel + 1 =>
    if s.length ≤ i then []
    else
      match matchQuotesAt s i with
      | some e => (i, e) :: findSpansAux s e fuel
      | none => findSpansAux s (i + 1) fuel

/-- All spans matched by the quotes regex in `s` (start, exclusive end). -/
def quotedSpans (s : Str) : List (Nat × Nat) := findSpansAux s 0 (s.length + 1)

/-- Core of `_clean_query` / `_replace_spires_keywords_with_invenio_keywords`:
apply `f` to the text between quote spans, copy each span verbatim. -/
def replace_outside_quotes_aux (f : Str → Str) (s : Str) : List (Nat × Nat) → Nat → Str
  | [], cur => f (s.drop cur)
  | (b, e) :: rest, cur =>
    f (sliceStr s cur b) ++ sliceStr s b e ++ replace_outside_quotes_aux f s rest e

/-- Shared shape of the two quote-protected rewriting routines. -/
def replace_outside_quotes (f : Str → Str) (s : Str) : Str :=
  replace_outside_quotes_aux f s (quotedSpans s) 0

/-- `re.sub` for the pattern `\b` word `\b` (case-insensitive), as compiled by
`_replace_word_case_insensitive`. -/
def subWordAux (s word new : Str) : Nat → Nat → Str
  | _, 0 => []
  | i, fuel + 1 =>
    if s.length ≤ i then []
    else if hasBoundary s i && ciMatchAt s i word && hasBoundary s (i + word.length) then
      new ++ subWordAux s word new (i + word.length) fuel
    else charAt s i :: subWordAux s word new (i + 1) fuel

/-- `_replace_word_case_insensitive`. -/
def replace_word_case_insensitive (s old new : Str) : Str :=
  subWordAux s old new 0 (s.length + 1)

/-- `_clean_operators`: replace the word operators with symbols. -/
def clean_operators (q : Str) : Str :=
  replace_word_case_insensitive
    (replace_word_case_insensitive
      (replace_word_case_insensitive q "not".toList "-".toList)
      "and".toList "+".toList)
    "or".toList "|".toList

/-- `_clean_query`: operator cleaning outside quote spans only. -/
def clean_query (q : Str) : Str := replace_outside_quotes clean_operators q

/-! The parenthesis-aware scan of `parse_query`. -/

/-- The two exceptions raised by the parser. -/
inductive ParseError where
  | mismatchedParentheses
  | nestedParenthesesUnsupported
deriving Repr, DecidableEq

/-- Mutable scan state of `SearchQueryParenthesisedParser`, including the
loop-local variables of `parse_query` (`inside_quotes`,
`current_quotes_symbol`, `previous_character`).  Defaults are the values set
by `_init_parsing`. -/
structure ScanState where
  query : Str
  precedingOperator : Option Char := none
  precedingOperatorPosition : Int := -1
  followingOperator : Option Char := none
  followingOperatorPosition : Int := -1
  patternBeginning : Nat := 0
  patternEnd : Nat := 0
  patterns : List Str := []
  insideParentheses : Bool := false
  insideQuotes : Bool := false
  currentQuotesSymbol : Option Char := none
  previousCharacter : Option Char := none
deriving Repr, DecidableEq

/-- `_assign_default_values_for_operators_if_necessary`. -/
def assign_default_values_for_operators (st : ScanState) : ScanState :=
  if st.precedingOperator = none then
    { st with precedingOperator := some '+', precedingOperatorPosition := -1 }
  else
    { st with followingOperator := some '+', followingOperatorPosition := -1 }

/-- `_calculate_pattern_beginning`. -/
def calculate_pattern_beginning (st : ScanState) : Nat :=
  if (st.patternBeginning : Int) < st.precedingOperatorPosition then
    (st.precedingOperatorPosition + 1).toNat
  else st.patternBeginning

/-- `_calculate_pattern_end`. -/
def calculate_pattern_end (st : ScanState) : Nat :=
  if st.followingOperatorPosition < (st.patternEnd : Int) ∧ st.followingOperatorPosition ≠ -1 then
    st.followingOperatorPosition.toNat
  else st.patternEnd

/-- `_append_pattern`. -/
def append_pattern (st : ScanState) : ScanState :=
  let b := calculate_pattern_beginning st
  let e := calculate_pattern_end st
  let pat := pyStrip (sliceStr st.query b e)
  let ps := if pat = [] then st.patterns else st.patterns ++ [pat]
  { st with patterns := ps, patternBeginning := st.patternEnd + 1 }

/-- `_append_preceding_operator`. -/
def append_preceding_operator (st : ScanState) : ScanState :=
  match st.precedingOperator with
  | some c => { st with patterns := st.patterns ++ [[c]] }
  | none => { st with patterns := st.patterns ++ [['+']] }

/-- `_append_following_operator`. -/
def append_following_operator (st : ScanState) : ScanState :=
  match st.followingOperator with
  | some c => { st with patterns := st.patterns ++ [[c]] }
  | none => st

/-- `_clear_preceding_operator`. -/
def clear_preceding_operator (st : ScanState) : ScanState :=
  { st with precedingOperator := none, precedingOperatorPosition := -1 }

/-- `_clear_following_operator`. -/
def clear_following_operator (st : ScanState) : ScanState :=
  { st with followingOperator := none, followingOperatorPosition := -1 }

/-- `_handle_open_parenthesis`. -/
def handle_open_parenthesis (st : ScanState) : Except ParseError ScanState :=
  if st.insideParentheses then .error .nestedParenthesesUnsupported
  else
    let st := append_preceding_operator st
    let st := append_pattern st
    let st := append_following_operator st
    .ok (clear_following_operator (clear_preceding_operator
      { st with insideParentheses := true }))

/-- `_handle_close_parenthesis`. -/
def handle_close_parenthesis (st : ScanState) : Except ParseError ScanState :=
  if !st.insideParentheses then .error .mismatchedParentheses
  else .ok { append_pattern st with insideParentheses := false }

/-- `_handle_operator`. -/
def handle_operator (st : ScanState) (pos : Nat) : ScanState :=
  if st.insideParentheses then st
  else
    let op := charAt st.query pos
    if st.precedingOperator = none then
      { st with precedingOperator := some op, precedingOperatorPosition := (pos : Int),
                patternBeginning := pos + 1,
                followingOperator := none, followingOperatorPosition := -1 }
    else
      { st with followingOperator := some op, followingOperatorPosition := (pos : Int) }

/-- `_handle_non_white_space_characters`. -/
def handle_non_white_space_characters (st : ScanState) (pos : Nat) : ScanState :=
  let c := charAt st.query pos
  if pyIsSpace c || st.insideParentheses then st
  else assign_default_values_for_operators st

/-- The `if`/`elif` dispatch of the character loop of `parse_query` on the
current character (quotes, parentheses, operator symbols, everything else). -/
def scanAction (st : ScanState) (pos : Nat) (character : Char) : Except ParseError ScanState :=
  if (character == '"' || character == '\'') && st.previousCharacter != some '\\' then
    .ok (if !st.insideQuotes then
          { assign_default_values_for_operators st with
              insideQuotes := true, currentQuotesSymbol := some character }
        else if st.insideQuotes && st.currentQuotesSymbol == some character then
          { st with insideQuotes := false, currentQuotesSymbol := none }
        else st)
  else if character == '(' && st.previousCharacter != some '\\' then
    handle_open_parenthesis st
  else if character == ')' && st.previousCharacter != some '\\' then
    handle_close_parenthesis st
  else if character == '+' || character == '|' || character == '-' then
    .ok (handle_operator st pos)
  else
    .ok (handle_non_white_space_characters st pos)

/-- One iteration of the character loop of `parse_query`.  Note that the
`continue` for characters inside quotes skips the `previous_character`
update, exactly as in the source. -/
def scanStep (st : ScanState) (pos : Nat) : Except ParseError ScanState :=
  let character := charAt st.query pos
  let st := { st with patternEnd := pos }
  if st.insideQuotes && st.currentQuotesSymbol != some character then
    .ok st
  else
    match scanAction st pos character with
    | .error e => .error e
    | .ok st2 => .ok { st2 with previousCharacter := some character }

/-- The character loop over a list of positions. -/
def runScan : ScanState → List Nat → Except ParseError ScanState
  | st, [] => .ok st
  | st, p :: ps =>
    match scanStep st p with
    | .error e => .error e
    | .ok st' => runScan st' ps

/-- `_append_last_pattern`. -/
def append_last_pattern (st : ScanState) : ScanState :=
  let st := { st with patternEnd := st.patternEnd + 1 }
  let st := append_preceding_operator st
  let st := append_pattern st
  if st.patterns.getLast? == some ['+'] then { st with patterns := st.patterns.dropLast }
  else st

/-- `_hasQueryParentheses`. -/
def hasQueryParentheses (query : Str) : Bool :=
  query.contains '(' || query.contains ')'

/-- `parse_query`: the fast path returns the raw query; otherwise the query
is cleaned, scanned character by character, the last pattern flushed, and
a still-open parenthesis reported as mismatched. -/
def parse_query (query : Str) : Except ParseError (List Str) :=
  if !hasQueryParentheses query then .ok [['+'], query]
  else
    let cleaned := clean_query query
    match runScan { query := cleaned } (List.range cleaned.length) with
    | .error e => .error e
    | .ok st =>
      let st := append_last_pattern st
      if st.insideParentheses then .error .mismatchedParentheses
      else .ok st.patterns

/-!
`SpiresToInvenioSyntaxConverter`.  The converter is a pipeline of regex
substitutions; `CFG_INSPIRE_SITE` is modelled as an explicit boolean
parameter threaded to the author-pattern formatter.
-/

/-- The SPIRES keyword table, in source order.  The Python source is a dict
literal containing the keys `" ea "` and `" exact-author "` twice; a Python
dict literal keeps the value of the last duplicate occurrence. -/
def spiresToInvenioKeywordsRaw : List (String × String) := [
    (" affiliation ", " 700__u:"),
    (" affil ", " 700__u:"),
    (" aff ", " 700__u:"),
    (" af ", " 700__u:"),
    (" institution ", " 700__u:"),
    (" inst ", " 700__u:"),
    (" any ", " anyfield:"),
    (" bb ", " 037__a:"),
    (" bbn ", " 037__a:"),
    (" bull ", " 037__a:"),
    (" bulletin-bd ", " 037__a:"),
    (" bulletin-bd-no ", " 037__a:"),
    (" eprint ", " 037__a:"),
    (" c ", " reference:"),
    (" citation ", " reference:"),
    (" cited ", " reference:"),
    (" jour-vol-page ", " reference:"),
    (" jvp ", " reference:"),
    (" collaboration ", " 710__g:"),
    (" collab-name ", " 710__g:"),
    (" cn ", " 710__g:"),
    (" conf-number ", " 111__g:"),
    (" cnum ", " 111__g:"),
    (" cc ", " 044__a:"),
    (" country ", " 044__a:"),
    (" date ", " 269__c:"),
    (" d ", " 269__c:"),
    (" date-added ", " 961__x:"),
    (" dadd ", " 961__x:"),
    (" da ", " 961__x:"),
    (" date-updated ", " 961__c:"),
    (" dupd ", " 961__c:"),
    (" du ", " 961__c:"),
    (" fa ", " 100__a:"),
    (" first-author ", " 100__a:"),
    (" a ", " author:"),
    (" au ", " author:"),
    (" author ", " author:"),
    (" name ", " author:"),
    (" ea ", " exactauthor:"),
    (" exact-author ", " exactauthor:"),
    (" exp ", " experiment:"),
    (" experiment ", " experiment:"),
    (" expno ", " experiment:"),
    (" sd ", " experiment:"),
    (" se ", " experiment:"),
    (" journal ", " journal:"),
    (" j ", " journal:"),
    (" published_in ", " journal:"),
    (" spicite ", " journal:"),
    (" vol ", " journal:"),
    (" journal-page ", " 773__c:"),
    (" jp ", " 773__c:"),
    (" journal-year ", " 773__y:"),
    (" jy ", " 773__y:"),
    (" key ", " 970__a:"),
    (" irn ", " 970__a:"),
    (" record ", " 970__a:"),
    (" document ", " 970__a:"),
    (" documents ", " 970__a:"),
    (" k ", " keyword:"),
    (" keywords ", " keyword:"),
    (" note ", " 500__a:"),
    (" n ", " 500__a:"),
    (" old-title ", " 246__a:"),
    (" old-t ", " 246__a:"),
    (" ex-ti ", " 246__a:"),
    (" et ", " 246__a:"),
    (" ppf-subject ", " 650__a:"),
    (" ps ", " 650__a:"),
    (" scl ", " 650__a:"),
    (" status ", " 650__a:"),
    (" r ", " reportnumber:"),
    (" rn ", " reportnumber:"),
    (" rept ", " reportnumber:"),
    (" report ", " reportnumber:"),
    (" report-num ", " reportnumber:"),
    (" t ", " title:"),
    (" ti ", " title:"),
    (" title ", " title:"),
    (" with-language ", " title:"),
    (" topic ", " 653__a:"),
    (" tp ", " 653__a:"),
    (" hep-topic ", " 653__a:"),
    (" desy-keyword ", " 653__a:"),
    (" dk ", " 653__a:"),
    (" arx ", " "),
    (" category ", " "),
    (" bc ", " "),
    (" browse-only-indx ", " "),
    (" coden ", " "),
    (" journal-coden ", " "),
    (" e ", " "),
    (" energy ", " "),
    (" energyrange-code ", " "),
    (" ea ", " "),
    (" exact-author ", " "),
    (" ee ", " "),
    (" exact-exp ", " "),
    (" exact-expno ", " "),
    (" f ", " "),
    (" fc ", " "),
    (" field ", " "),
    (" field-code ", " "),
    (" hidden-note ", " "),
    (" hn ", " "),
    (" ppf ", " "),
    (" ppflist ", " "),
    (" parx ", " "),
    (" primarch ", " "),
    (" ppfa ", " "),
    (" slac-topics ", " "),
    (" special-topics ", " "),
    (" stp ", " "),
    (" test ", " "),
    (" testindex ", " "),
    (" texkey ", " "),
    (" tc ", " "),
    (" ty ", " "),
    (" type ", " "),
    (" type-code ", " ")]

/-- Insert a key/value pair into an association list with Python dict
update semantics: a duplicate key keeps its position and takes the new
value. -/
def dictInsert (acc : List (String × String)) (kv : String × String) :
    List (String × String) :=
  if acc.any (fun p => p.1 = kv.1) then
    acc.map (fun p => if p.1 = kv.1 then (p.1, kv.2) else p)
  else acc ++ [kv]

/-- `_SPIRES_TO_INVENIO_KEYWORDS_MATCHINGS` as the Python dict holds it:
the duplicate keys `" ea "` and `" exact-author "` collapsed to their last
value (the iteration order of the Python 2 dict is unspecified; it is
modelled as insertion order).  Spelled out as a literal so that proofs
evaluate it cheaply; `spiresToInvenioKeywords_eq_dict` checks it against
the dict fold over the source-order list. -/
def spiresToInvenioKeywords : List (String × String) := [
    (" affiliation ", " 700__u:"),
    (" affil ", " 700__u:"),
    (" aff ", " 700__u:"),
    (" af ", " 700__u:"),
    (" institution ", " 700__u:"),
    (" inst ", " 700__u:"),
    (" any ", " anyfield:"),
    (" bb ", " 037__a:"),
    (" bbn ", " 037__a:"),
    (" bull ", " 037__a:"),
    (" bulletin-bd ", " 037__a:"),
    (" bulletin-bd-no ", " 037__a:"),
    (" eprint ", " 037__a:"),
    (" c ", " reference:"),
    (" citation ", " reference:"),
    (" cited ", " reference:"),
    (" jour-vol-page ", " reference:"),
    (" jvp ", " reference:"),
    (" collaboration ", " 710__g:"),
    (" collab-name ", " 710__g:"),
    (" cn ", " 710__g:"),
    (" conf-number ", " 111__g:"),
    (" cnum ", " 111__g:"),
    (" cc ", " 044__a:"),
    (" country ", " 044__a:"),
    (" date ", " 269__c:"),
    (" d ", " 269__c:"),
    (" date-added ", " 961__x:"),
    (" dadd ", " 961__x:"),
    (" da ", " 961__x:"),
    (" date-updated ", " 961__c:"),
    (" dupd ", " 961__c:"),
    (" du ", " 961__c:"),
    (" fa ", " 100__a:"),
    (" first-author ", " 100__a:"),
    (" a ", " author:"),
    (" au ", " author:"),
    (" author ", " author:"),
    (" name ", " author:"),
    (" ea ", " "),
    (" exact-author ", " "),
    (" exp ", " experiment:"),
    (" experiment ", " experiment:"),
    (" expno ", " experiment:"),
    (" sd ", " experiment:"),
    (" se ", " experiment:"),
    (" journal ", " journal:"),
    (" j ", " journal:"),
    (" published_in ", " journal:"),
    (" spicite ", " journal:"),
    (" vol ", " journal:"),
    (" journal-page ", " 773__c:"),
    (" jp ", " 773__c:"),
    (" journal-year ", " 773__y:"),
    (" jy ", " 773__y:"),
    (" key ", " 970__a:"),
    (" irn ", " 970__a:"),
    (" record ", " 970__a:"),
    (" document ", " 970__a:"),
    (" documents ", " 970__a:"),
    (" k ", " keyword:"),
    (" keywords ", " keyword:"),
    (" note ", " 500__a:"),
    (" n ", " 500__a:"),
    (" old-title ", " 246__a:"),
    (" old-t ", " 246__a:"),
    (" ex-ti ", " 246__a:"),
    (" et ", " 246__a:"),
    (" ppf-subject ", " 650__a:"),
    (" ps ", " 650__a:"),
    (" scl ", " 650__a:"),
    (" status ", " 650__a:"),
    (" r ", " reportnumber:"),
    (" rn ", " reportnumber:"),
    (" rept ", " reportnumber:"),
    (" report ", " reportnumber:"),
    (" report-num ", " reportnumber:"),
    (" t ", " title:"),
    (" ti ", " title:"),
    (" title ", " title:"),
    (" with-language ", " title:"),
    (" topic ", " 653__a:"),
    (" tp ", " 653__a:"),
    (" hep-topic ", " 653__a:"),
    (" desy-keyword ", " 653__a:"),
    (" dk ", " 653__a:"),
    (" arx ", " "),
    (" category ", " "),
    (" bc ", " "),
    (" browse-only-indx ", " "),
    (" coden ", " "),
    (" journal-coden ", " "),
    (" e ", " "),
    (" energy ", " "),
    (" energyrange-code ", " "),
    (" ee ", " "),
    (" exact-exp ", " "),
    (" exact-expno ", " "),
    (" f ", " "),
    (" fc ", " "),
    (" field ", " "),
    (" field-code ", " "),
    (" hidden-note ", " "),
    (" hn ", " "),
    (" ppf ", " "),
    (" ppflist ", " "),
    (" parx ", " "),
    (" primarch ", " "),
    (" ppfa ", " "),
    (" slac-topics ", " "),
    (" special-topics ", " "),
    (" stp ", " "),
    (" test ", " "),
    (" testindex ", " "),
    (" texkey ", " "),
    (" tc ", " "),
    (" ty ", " "),
    (" type ", " "),
    (" type-code ", " ")]

/-- The literal table above is exactly the Python dict built from the
source-order key/value list. -/
theorem spiresToInvenioKeywords_eq_dict :
    spiresToInvenioKeywords = spiresToInvenioKeywordsRaw.foldl dictInsert [] := by rfl

/-- The zero-width group `((?<=find)|(?<=and)|(?<=or)|(?<=not))` of
`_replace_keyword`, case-insensitive. -/
def lookbehindCombiner (s : Str) (i : Nat) : Bool :=
  (4 ≤ i && ciMatchAt s (i - 4) "find".toList) ||
  (3 ≤ i && ciMatchAt s (i - 3) "and".toList) ||
  (2 ≤ i && ciMatchAt s (i - 2) "or".toList) ||
  (3 ≤ i && ciMatchAt s (i - 3) "not".toList)

/-- Backtracking of the greedy `\s*` before the keyword literal: try the
largest number of consumed whitespace characters first.  Returns the
exclusive end of the whole match. -/
def kwTryAt (s kw : Str) (i : Nat) : Nat → Option Nat
  | 0 =>
    if ciMatchAt s i kw && hasBoundary s (i + kw.length) then some (i + kw.length)
    else none
  | m + 1 =>
    if ciMatchAt s (i + m + 1) kw && hasBoundary s (i + m + 1 + kw.length) then
      some (i + m + 1 + kw.length)
    else kwTryAt s kw i m

/-- Match of `\b((?<=find)|(?<=and)|(?<=or)|(?<=not))\s*` kw `\b` at
position `i`. -/
def matchKeywordAt (s : Str) (i : Nat) (kw : Str) : Option Nat :=
  if hasBoundary s i && lookbehindCombiner s i then kwTryAt s kw i (wsRun s i)
  else none

/-- `re.sub` scanning for one keyword (`_replace_keyword`). -/
def subKeywordAux (s kw new : Str) : Nat → Nat → Str
  | _, 0 => []
  | i, fuel + 1 =>
    if s.length ≤ i then []
    else
      match matchKeywordAt s i kw with
      | some e => new ++ subKeywordAux s kw new e fuel
      | none => charAt s i :: subKeywordAux s kw new (i + 1) fuel

/-- `_replace_keyword`. -/
def replace_keyword (q old new : Str) : Str :=
  subKeywordAux q old new 0 (q.length + 1)

/-- `_replace_all_spires_keywords_in_string`. -/
def replace_all_spires_keywords_in_string (q : Str) : Str :=
  spiresToInvenioKeywords.foldl
    (fun acc kv => replace_keyword acc kv.1.toList kv.2.toList) q

/-- `_replace_spires_keywords_with_invenio_keywords`: keyword replacement
outside quote spans only. -/
def replace_spires_keywords_with_invenio_keywords (q : Str) : Str :=
  replace_outside_quotes replace_all_spires_keywords_in_string q

/-!
Date shorthand: `\b(d|date)\b\s*(before|<)\s*(?P<year>\d{4})\b` and the
`after`/`>` variant, case-insensitive.
-/

/-- Match of `\b(d|date)\b` at `i`; returns the position after the keyword. -/
def matchDateKeywordAt (s : Str) (i : Nat) : Option Nat :=
  if hasBoundary s i then
    if ciMatchAt s i "d".toList && hasBoundary s (i + 1) then some (i + 1)
    else if ciMatchAt s i "date".toList && hasBoundary s (i + 4) then some (i + 4)
    else none
  else none

/-- Try the relation literals (e.g. `before` then `<`) in alternation
order at position `p`; returns the position after the literal. -/
def matchRelAt (s : Str) (p : Nat) : List Str → Option Nat
  | [] => none
  | rel :: rest =>
    if ciMatchAt s p rel then some (p + rel.length) else matchRelAt s p rest

/-- Match of the full date pattern at `i`; returns the exclusive end and
the four digits of the year group. -/
def matchDateAt (s : Str) (i : Nat) (rels : List Str) : Option (Nat × Str) :=
  match matchDateKeywordAt s i with
  | none => none
  | some k =>
    let p1 := k + wsRun s k
    match matchRelAt s p1 rels with
    | none => none
    | some p2 =>
      let p3 := p2 + wsRun s p2
      let ds := (s.drop p3).take 4
      if ds.length == 4 && ds.all Char.isDigit && hasBoundary s (p3 + 4) then
        some (p3 + 4, ds)
      else none

/-- `re.sub` scanning for a date pattern with replacement built from the
year group. -/
def subDateAux (s : Str) (rels : List Str) (mkRep : Str → Str) : Nat → Nat → Str
  | _, 0 => []
  | i, fuel + 1 =>
    if s.length ≤ i then []
    else
      match matchDateAt s i rels with
      | some (e, ds) => mkRep ds ++ subDateAux s rels mkRep e fuel
      | none => charAt s i :: subDateAux s rels mkRep (i + 1) fuel

/-- `_convert_spires_date_after_to_invenio_span_query`. -/
def convert_spires_date_after_to_invenio_span_query (q : Str) : Str :=
  subDateAux q ["after".toList, ">".toList]
    (fun ds => "year:".toList ++ ds ++ "->9999".toList) 0 (q.length + 1)

/-- `_convert_spires_date_before_to_invenio_span_query`. -/
def convert_spires_date_before_to_invenio_span_query (q : Str) : Str :=
  subDateAux q ["before".toList, "<".toList]
    (fun ds => "year:0->".toList ++ ds) 0 (q.length + 1)

/-!
Author patterns: the five alternatives of `_re_author_match` and the
formatter `_create_author_search_pattern`.
-/

/-- The lookahead `(?= and | or | not |$)`, case-insensitive. -/
def lookaheadCombOk (s : Str) (j : Nat) : Bool :=
  ciMatchAt s j " and ".toList || ciMatchAt s j " or ".toList ||
  ciMatchAt s j " not ".toList || dollarAt s j

/-- The negative lookahead `(?!and |or |not )`, case-insensitive: true when
one of the three literals matches (so the alternative must fail). -/
def negLookaheadComb (s : Str) (j : Nat) : Bool :=
  ciMatchAt s j "and ".toList || ciMatchAt s j "or ".toList ||
  ciMatchAt s j "not ".toList

/-- Alternative `author:\s*(?P<surname1>\w+),\s*(?P<name1>\w{3,})\b(?= and | or | not |$)`. -/
def matchAuthorAlt1 (s : Str) (p : Nat) : Option (Nat × Option Str × Option Str × Option Str) :=
  let a := p + wsRun s p
  let sr := wordRun s a
  if sr == 0 then none
  else if charAt s (a + sr) != ',' then none
  else
    let b := a + sr + 1
    let b2 := b + wsRun s b
    let nr := wordRun s b2
    if nr < 3 then none
    else
      let e := b2 + nr
      if hasBoundary s e && lookaheadCombOk s e then
        some (e, some (sliceStr s b2 e), none, some (sliceStr s a (a + sr)))
      else none

/-- Alternative `author:\s*(?P<name2>\w+)\s+(?!and |or |not )(?P<surname2>\w+)\b(?= and | or | not |$)`. -/
def matchAuthorAlt2 (s : Str) (p : Nat) : Option (Nat × Option Str × Option Str × Option Str) :=
  let a := p + wsRun s p
  let nr := wordRun s a
  if nr == 0 then none
  else
    let q1 := a + nr
    let sp := wsRun s q1
    if sp == 0 then none
    else
      let q2 := q1 + sp
      if negLookaheadComb s q2 then none
      else
        let sr := wordRun s q2
        if sr == 0 then none
        else
          let e := q2 + sr
          if hasBoundary s e && lookaheadCombOk s e then
            some (e, some (sliceStr s a q1), none, some (sliceStr s q2 e))
          else none

/-- Alternative `author:\s*(?P<surname3>\w+),\s*(?P<name3>\w{1,2})\b\.?(?= and | or | not |$)`. -/
def matchAuthorAlt3 (s : Str) (p : Nat) : Option (Nat × Option Str × Option Str × Option Str) :=
  let a := p + wsRun s p
  let sr := wordRun s a
  if sr == 0 then none
  else if charAt s (a + sr) != ',' then none
  else
    let b := a + sr + 1
    let b2 := b + wsRun s b
    let nr := wordRun s b2
    if nr == 0 || 2 < nr then none
    else
      let e0 := b2 + nr
      if !hasBoundary s e0 then none
      else
        let gs := (some (sliceStr s b2 e0), (none : Option Str), some (sliceStr s a (a + sr)))
        if charAt s e0 == '.' && lookaheadCombOk s (e0 + 1) then
          some (e0 + 1, gs.1, gs.2.1, gs.2.2)
        else if lookaheadCombOk s e0 then some (e0, gs.1, gs.2.1, gs.2.2)
        else none

/-- Alternative `author:\s*(?P<surname4>\w+),\s*(?P<name4>\w+)\b\.?\s+(?!and |or |not )(?P<middle_name4>\w+)\b\.?`. -/
def matchAuthorAlt4 (s : Str) (p : Nat) : Option (Nat × Option Str × Option Str × Option Str) :=
  let a := p + wsRun s p
  let sr := wordRun s a
  if sr == 0 then none
  else if charAt s (a + sr) != ',' then none
  else
    let b := a + sr + 1
    let b2 := b + wsRun s b
    let nr := wordRun s b2
    if nr == 0 then none
    else
      let e0 := b2 + nr
      let d := if charAt s e0 == '.' then 1 else 0
      let sp := wsRun s (e0 + d)
      if sp == 0 then none
      else
        let q2 := e0 + d + sp
        if negLookaheadComb s q2 then none
        else
          let mr := wordRun s q2
          if mr == 0 then none
          else
            let e1 := q2 + mr
            let e := if charAt s e1 == '.' then e1 + 1 else e1
            some (e, some (sliceStr s b2 e0), some (sliceStr s q2 e1),
              some (sliceStr s a (a + sr)))

/-- Alternative `author:\s*(?P<name5>\w+)\b\.?\s+(?!and |or |not )(?P<middle_name5>\w+)\b\.?\s+(?!and |or |not )(?P<surname5>\w+)\b\.?`. -/
def matchAuthorAlt5 (s : Str) (p : Nat) : Option (Nat × Option Str × Option Str × Option Str) :=
  let a := p + wsRun s p
  let nr := wordRun s a
  if nr == 0 then none
  else
    let e0 := a + nr
    let d1 := if charAt s e0 == '.' then 1 else 0
    let sp1 := wsRun s (e0 + d1)
    if sp1 == 0 then none
    else
      let q2 := e0 + d1 + sp1
      if negLookaheadComb s q2 then none
      else
        let mr := wordRun s q2
        if mr == 0 then none
        else
          let e1 := q2 + mr
          let d2 := if charAt s e1 == '.' then 1 else 0
          let sp2 := wsRun s (e1 + d2)
          if sp2 == 0 then none
          else
            let q3 := e1 + d2 + sp2
            if negLookaheadComb s q3 then none
            else
              let sr := wordRun s q3
              if sr == 0 then none
              else
                let e2 := q3 + sr
                let e := if charAt s e2 == '.' then e2 + 1 else e2
                some (e, some (sliceStr s a e0), some (sliceStr s q2 e1),
                  some (sliceStr s q3 e2))

/-- Match of `_re_author_match` at position `i`: the common `\bauthor:`
prefix, then the five alternatives in order.  Returns the exclusive end
and the (name, middle name, surname) groups. -/
def matchAuthorAt (s : Str) (i : Nat) : Option (Nat × Option Str × Option Str × Option Str) :=
  if hasBoundary s i && ciMatchAt s i "author:".toList then
    let p := i + 7
    match matchAuthorAlt1 s p with
    | some r => some r
    | none =>
      match matchAuthorAlt2 s p with
      | some r => some r
      | none =>
        match matchAuthorAlt3 s p with
        | some r => some r
        | none =>
          match matchAuthorAlt4 s p with
          | some r => some r
          | none => matchAuthorAlt5 s p
  else none

/-- `_create_author_search_pattern`.  `inspire` models `CFG_INSPIRE_SITE`. -/
def create_author_search_pattern (inspire : Bool)
    (author_name author_middle_name author_surname : Option Str) : Str :=
  if author_surname = none ∨ author_surname = some [] then []
  else
    let surname := author_surname.getD []
    let dotSymbol : Str := if inspire then ['.'] else [' ']
    let kw : Str := "author:".toList
    if author_middle_name ≠ none ∧ author_middle_name ≠ some [] then
      let name := author_name.getD []
      let middle := author_middle_name.getD []
      let pat := kw ++ "\"".toList ++ surname ++ ", ".toList ++ name ++ "*".toList ++
        " ".toList ++ middle ++ "*\"".toList
      if 1 < name.length then
        pat ++ " or ".toList ++
          kw ++ "\"".toList ++ surname ++ ", ".toList ++ name.take 1 ++ dotSymbol ++
            middle ++ dotSymbol ++ "\" or ".toList ++
          kw ++ "\"".toList ++ surname ++ ", ".toList ++ name.take 2 ++ dotSymbol ++
            middle ++ dotSymbol ++ "\"".toList
      else pat
    else if author_name = none ∨ author_name = some [] then kw ++ surname
    else
      let name := author_name.getD []
      if name.length == 1 then
        kw ++ "\"".toList ++ surname ++ ", ".toList ++ name ++ "*\"".toList
      else
        kw ++ "\"".toList ++ surname ++ ", ".toList ++ name ++ "\" or ".toList ++
        kw ++ "\"".toList ++ surname ++ ", ".toList ++ name.take 1 ++ dotSymbol ++
          "*\" or ".toList ++
        kw ++ "\"".toList ++ surname ++ ", ".toList ++ name.take 1 ++ "\" or ".toList ++
        kw ++ "\"".toList ++ surname ++ ", ".toList ++ name.take 2 ++ dotSymbol ++
          "*\" or ".toList ++
        kw ++ "\"".toList ++ surname ++ ", ".toList ++ name.take 2 ++ "\" or ".toList ++
        kw ++ "\"".toList ++ surname ++ ", ".toList ++ name ++ " *\"".toList

/-- `finditer` assembly of `_convert_spires_author_search_to_invenio_author_search`. -/
def authorSubAux (inspire : Bool) (s : Str) : Nat → Nat → Str
  | _, 0 => []
  | i, fuel + 1 =>
    if s.length ≤ i then []
    else
      match matchAuthorAt s i with
      | some (e, n, m, sur) =>
        create_author_search_pattern inspire n m sur ++ authorSubAux inspire s e fuel
      | none => charAt s i :: authorSubAux inspire s (i + 1) fuel

/-- `_convert_spires_author_search_to_invenio_author_search`. -/
def convert_spires_author_search_to_invenio_author_search (inspire : Bool) (q : Str) : Str :=
  authorSubAux inspire q 0 (q.length + 1)

/-!
Exact author: `\bexactauthor:(?P<author_name>.*?\b)(?= and | or | not |$)`.
-/

/-- Lazy `.*?\b(?= and | or | not |$)` starting at `p`: smallest end
position satisfying the boundary and the lookahead, extending only over
non-newline characters. -/
def lazyContentEnd (s : Str) (p : Nat) : Nat → Nat → Option Nat
  | _, 0 => none
  | n, fuel + 1 =>
    if hasBoundary s (p + n) && lookaheadCombOk s (p + n) then some (p + n)
    else if s.length ≤ p + n then none
    else if charAt s (p + n) == '\n' then none
    else lazyContentEnd s p (n + 1) fuel

/-- Match of `_re_exact_author_match` at `i`: returns the exclusive end and
the `author_name` group. -/
def matchExactAuthorAt (s : Str) (i : Nat) : Option (Nat × Str) :=
  if hasBoundary s i && ciMatchAt s i "exactauthor:".toList then
    let p := i + 12
    match lazyContentEnd s p 0 (s.length + 1) with
    | some e => some (e, sliceStr s p e)
    | none => none
  else none

/-- `re.sub` scanning of `_convert_spires_exact_author_search_to_invenio_author_search`. -/
def exactAuthorSubAux (s : Str) : Nat → Nat → Str
  | _, 0 => []
  | i, fuel + 1 =>
    if s.length ≤ i then []
    else
      match matchExactAuthorAt s i with
      | some (e, content) =>
        "author:\"".toList ++ content ++ "\"".toList ++ exactAuthorSubAux s e fuel
      | none => charAt s i :: exactAuthorSubAux s (i + 1) fuel

/-- `_convert_spires_exact_author_search_to_invenio_author_search`. -/
def convert_spires_exact_author_search_to_invenio_author_search (q : Str) : Str :=
  exactAuthorSubAux q 0 (q.length + 1)

/-- `_convert_spires_truncation_to_invenio_truncation`: `#` becomes `*`. -/
def convert_spires_truncation_to_invenio_truncation (q : Str) : Str :=
  q.map (fun c => if c == '#' then '*' else c)

/-!
Multi-word field expansion:
`\b(?P<combine_operator>find|and|or|not)\s+(?P<search_term>title:|keyword:)(?P<search_content>.*?\b)(?= and | or | not |$)`.
-/

/-- Python 2 `re.split(r'\s*', s)`: zero-width matches never split, so the
string is split on each maximal nonempty whitespace run.  The boolean is
true while skipping the remainder of a separator run. -/
def splitWsAux : Str → Bool → Str → List Str
  | [], true, _ => [[]]
  | [], false, cur => [cur.reverse]
  | c :: rest, true, _ =>
    if pyIsSpace c then splitWsAux rest true [] else splitWsAux rest false [c]
  | c :: rest, false, cur =>
    if pyIsSpace c then cur.reverse :: splitWsAux rest true []
    else splitWsAux rest false (c :: cur)

/-- `self._re_split_pattern.split(search_content)`. -/
def splitWs (s : Str) : List Str := splitWsAux s false []

/-- The word loop of `create_replacement_pattern` inside
`_expand_search_patterns`: when the combining operator is `find` the
accumulated result is overwritten with `find term word` and the operator
becomes `and`; otherwise ` op term word` is appended. -/
def expandWords (searchTerm : Str) : Str → Str → List Str → Str
  | result, _, [] => result
  | result, combineOp, w :: ws =>
    if lowerStr combineOp = "find".toList then
      expandWords searchTerm ("find ".toList ++ searchTerm ++ w) "and".toList ws
    else
      expandWords searchTerm
        (result ++ " ".toList ++ combineOp ++ " ".toList ++ searchTerm ++ w)
        combineOp ws

/-- `create_replacement_pattern` of `_expand_search_patterns`. -/
def create_expand_replacement (combineOp searchTerm content : Str) : Str :=
  pyStrip (expandWords searchTerm [] combineOp (splitWs (pyStrip content)))

/-- Try the alternation literals at `p` (case-insensitive); returns the
matched original text and the following position. -/
def matchAltLiteral (s : Str) (p : Nat) : List Str → Option (Str × Nat)
  | [] => none
  | lit :: rest =>
    if ciMatchAt s p lit then some (sliceStr s p (p + lit.length), p + lit.length)
    else matchAltLiteral s p rest

/-- Match of `_re_search_term_pattern_match` at `i`: returns the exclusive
end and the combine operator, search term and content groups (the operator
and term groups keep the original casing of the matched text). -/
def matchExpandAt (s : Str) (i : Nat) : Option (Nat × Str × Str × Str) :=
  if !hasBoundary s i then none
  else
    match matchAltLiteral s i ["find".toList, "and".toList, "or".toList, "not".toList] with
    | none => none
    | some (opText, p1) =>
      let sp := wsRun s p1
      if sp == 0 then none
      else
        let q1 := p1 + sp
        match matchAltLiteral s q1 ["title:".toList, "keyword:".toList] with
        | none => none
        | some (termText, q2) =>
          match lazyContentEnd s q2 0 (s.length + 1) with
          | some e => some (e, opText, termText, sliceStr s q2 e)
          | none => none

/-- `re.sub` scanning of `_expand_search_patterns`. -/
def expandSubAux (s : Str) : Nat → Nat → Str
  | _, 0 => []
  | i, fuel + 1 =>
    if s.length ≤ i then []
    else
      match matchExpandAt s i with
      | some (e, opText, termText, content) =>
        create_expand_replacement opText termText content ++ expandSubAux s e fuel
      | none => charAt s i :: expandSubAux s (i + 1) fuel

/-- `_expand_search_patterns`. -/
def expand_search_patterns (q : Str) : Str :=
  expandSubAux q 0 (q.length + 1)

/-- `convert_query`: the staged SPIRES-to-Invenio pipeline, applied only to
queries starting (case-insensitively) with `find `; `inspire` models the
`CFG_INSPIRE_SITE` configuration flag. -/
def convert_query (inspire : Bool) (query : Str) : Str :=
  if (lowerStr query).take 5 = "find ".toList then
    let q := convert_spires_date_before_to_invenio_span_query query
    let q := convert_spires_date_after_to_invenio_span_query q
    let q := replace_spires_keywords_with_invenio_keywords q
    let q := convert_spires_author_search_to_invenio_author_search inspire q
    let q := convert_spires_exact_author_search_to_invenio_author_search q
    let q := convert_spires_truncation_to_invenio_truncation q
    let q := expand_search_patterns q
    q.drop 5
  else query

/-!
Claim theorems.
-/

/-- Claim C2 (confirmed): `parse_query` fails on malformed parentheses:
an unclosed `(` and a stray `)` raise `MismatchedParentheses`, and a second
`(` inside an open group raises `NestedParenthesesUnsupported`; in
particular on `"a (b"`, `"a) b"` and `"a (b (c) d"`. -/
theorem claim2_malformed_parentheses :
    parse_query "a (b".toList = Except.error ParseError.mismatchedParentheses ∧
    parse_query "a) b".toList = Except.error ParseError.mismatchedParentheses ∧
    parse_query "a (b (c) d".toList = Except.error ParseError.nestedParenthesesUnsupported := by
  refine ⟨by rfl, by rfl, by rfl⟩

/-- Claim C4 (confirmed): on any query containing neither `(` nor `)`,
`parse_query` returns exactly `[DefaultOperator, query]` with the input
itself, unmodified, as the single clause. -/
theorem claim4_no_parentheses_fast_path (q : Str) (h : hasQueryParentheses q = false) :
    parse_query q = Except.ok [['+'], q] := by
  simp [parse_query, h]

/-- Witness for C4 at the concrete input `"title:ellis"`. -/
theorem claim4_witness :
    parse_query "title:ellis".toList = Except.ok [['+'], "title:ellis".toList] :=
  claim4_no_parentheses_fast_path "title:ellis".toList (by rfl)

/-- Claim C10 (confirmed): `parse_query` on `"()"` succeeds and returns the
one-element list `['+']`: the empty clauses of the group are discarded
while the speculatively appended preceding operator is kept. -/
theorem claim10_empty_group : parse_query "()".toList = Except.ok [['+']] := by rfl

/-!
Structural invariant machinery for the scan (claim C1).
-/

/-- The three operator symbols, as one-character patterns. -/
def opPatterns : List Str := [['+'], ['|'], ['-']]

/-- The first element of the list, when there is one, is an operator. -/
def headOk (l : List Str) : Prop := ∀ p ∈ l.take 1, p ∈ opPatterns

lemma headOk_append {l : List Str} {x : Str} (h : headOk l)
    (hx : l = [] → x ∈ opPatterns) : headOk (l ++ [x]) := by
  cases l with
  | nil =>
    intro p hp
    simp only [List.nil_append, List.take] at hp
    simp only [List.mem_singleton] at hp
    exact hp ▸ hx rfl
  | cons a t =>
    intro p hp
    simp only [List.cons_append, List.take, List.mem_singleton] at hp
    exact hp ▸ h a (by simp [List.take])

lemma headOk_dropLast {l : List Str} (h : headOk l) : headOk l.dropLast := by
  match l with
  | [] => simpa using h
  | [a] => intro p hp; simp at hp
  | a :: b :: t =>
    intro p hp
    simp only [List.dropLast, List.take, List.mem_singleton] at hp
    exact hp ▸ h a (by simp [List.take])

/-- Invariant carried through the scan: the pattern list starts with an
operator (when nonempty), it is nonempty whenever the scan is inside
parentheses, and any recorded preceding operator is an operator symbol. -/
structure ScanInv (st : ScanState) : Prop where
  hd : headOk st.patterns
  ne : st.insideParentheses = true → st.patterns ≠ []
  ops : ∀ c, st.precedingOperator = some c → [c] ∈ opPatterns

lemma scanInv_assign {st : ScanState} (h : ScanInv st) :
    ScanInv (assign_default_values_for_operators st) := by
  unfold assign_default_values_for_operators
  split
  · exact ⟨h.hd, h.ne, fun c hc => by
      simp only [Option.some.injEq] at hc
      simp [← hc, opPatterns]⟩
  · exact ⟨h.hd, h.ne, h.ops⟩

lemma scanInv_append_preceding {st : ScanState} (h : ScanInv st) :
    ScanInv (append_preceding_operator st) ∧
      (append_preceding_operator st).patterns ≠ [] := by
  unfold append_preceding_operator
  split
  · next c hop =>
    exact ⟨⟨headOk_append h.hd (fun _ => h.ops c hop),
      fun _ => by simp, h.ops⟩, by simp⟩
  · exact ⟨⟨headOk_append h.hd (fun _ => by simp [opPatterns]),
      fun _ => by simp, h.ops⟩, by simp⟩

lemma scanInv_append_pattern {st : ScanState} (h : ScanInv st)
    (hne : st.patterns ≠ []) :
    ScanInv (append_pattern st) ∧ (append_pattern st).patterns ≠ [] := by
  unfold append_pattern
  simp only []
  split
  · exact ⟨⟨h.hd, fun _ => hne, h.ops⟩, hne⟩
  · exact ⟨⟨headOk_append h.hd (fun hnil => absurd hnil hne),
      fun _ => by simp, h.ops⟩, by simp⟩

lemma scanInv_append_following {st : ScanState} (h : ScanInv st)
    (hne : st.patterns ≠ []) :
    ScanInv (append_following_operator st) ∧
      (append_following_operator st).patterns ≠ [] := by
  unfold append_following_operator
  split
  · exact ⟨⟨headOk_append h.hd (fun hnil => absurd hnil hne),
      fun _ => by simp, h.ops⟩, by simp⟩
  · exact ⟨h, hne⟩

lemma scanInv_handle_open {st st' : ScanState} (h : ScanInv st)
    (e : handle_open_parenthesis st = .ok st') : ScanInv st' := by
  unfold handle_open_parenthesis at e
  split at e
  · exact absurd e (by simp)
  · obtain ⟨h1, h1ne⟩ := scanInv_append_preceding h
    obtain ⟨h2, h2ne⟩ := scanInv_append_pattern h1 h1ne
    obtain ⟨h3, h3ne⟩ := scanInv_append_following h2 h2ne
    injection e with e
    subst e
    exact ⟨h3.hd, fun _ => h3ne, fun c hc => by
      simp [clear_following_operator, clear_preceding_operator] at hc⟩

lemma scanInv_handle_close {st st' : ScanState} (h : ScanInv st)
    (e : handle_close_parenthesis st = .ok st') : ScanInv st' := by
  unfold handle_close_parenthesis at e
  split at e
  · exact absurd e (by simp)
  · next hin =>
    have hin' : st.insideParentheses = true := by
      cases hb : st.insideParentheses
      · rw [hb] at hin; simp at hin
      · rfl
    obtain ⟨h2, h2ne⟩ := scanInv_append_pattern h (h.ne hin')
    injection e with e
    subst e
    exact ⟨h2.hd, fun hfalse => by simp at hfalse, h2.ops⟩

lemma scanInv_handle_operator {st : ScanState} {pos : Nat} (h : ScanInv st)
    (hc : charAt st.query pos = '+' ∨ charAt st.query pos = '|' ∨
      charAt st.query pos = '-') :
    ScanInv (handle_operator st pos) := by
  unfold handle_operator
  split
  · exact h
  · split
    · refine ⟨h.hd, h.ne, fun c hcc => ?_⟩
      simp only [Option.some.injEq] at hcc
      rcases hc with hc | hc | hc <;> simp [← hcc, hc, opPatterns]
    · exact ⟨h.hd, h.ne, h.ops⟩

lemma scanInv_handle_nws {st : ScanState} {pos : Nat} (h : ScanInv st) :
    ScanInv (handle_non_white_space_characters st pos) := by
  unfold handle_non_white_space_characters
  simp only []
  split
  · exact h
  · exact scanInv_assign h

lemma scanInv_scanAction {st st' : ScanState} {pos : Nat} {c : Char}
    (h : ScanInv st) (hc : c = charAt st.query pos)
    (e : scanAction st pos c = .ok st') : ScanInv st' := by
  unfold scanAction at e
  split at e
  · next hq =>
    injection e with e
    subst e
    split
    · exact ⟨(scanInv_assign h).hd, (scanInv_assign h).ne, (scanInv_assign h).ops⟩
    · split
      · exact ⟨h.hd, h.ne, h.ops⟩
      · exact h
  · split at e
    · exact scanInv_handle_open h e
    · split at e
      · exact scanInv_handle_close h e
      · split at e
        · next hop =>
          injection e with e
          subst e
          refine scanInv_handle_operator h ?_
          rw [← hc]
          simp only [Bool.or_eq_true, beq_iff_eq] at hop
          tauto
        · injection e with e
          subst e
          exact scanInv_handle_nws h

lemma scanInv_scanStep {st st' : ScanState} {pos : Nat} (h : ScanInv st)
    (e : scanStep st pos = .ok st') : ScanInv st' := by
  unfold scanStep at e
  simp only [] at e
  have h1 : ScanInv { st with patternEnd := pos } := ⟨h.hd, h.ne, h.ops⟩
  split at e
  · injection e with e
    subst e
    exact h1
  · cases ha : scanAction { st with patternEnd := pos } pos (charAt st.query pos) with
    | error er => rw [ha] at e; exact absurd e (by simp)
    | ok st2 =>
      rw [ha] at e
      injection e with e
      subst e
      have h2 := scanInv_scanAction h1 rfl ha
      exact ⟨h2.hd, h2.ne, h2.ops⟩

lemma scanInv_runScan : ∀ (ps : List Nat) {st st' : ScanState},
    ScanInv st → runScan st ps = .ok st' → ScanInv st'
  | [], st, st', h, e => by
    unfold runScan at e
    injection e with e
    exact e ▸ h
  | p :: ps, st, st', h, e => by
    unfold runScan at e
    cases hstep : scanStep st p with
    | error er => rw [hstep] at e; exact absurd e (by simp)
    | ok st1 =>
      rw [hstep] at e
      exact scanInv_runScan ps (scanInv_scanStep h hstep) e

lemma headOk_append_last {st : ScanState} (h : ScanInv st) :
    headOk (append_last_pattern st).patterns := by
  unfold append_last_pattern
  simp only []
  have h0 : ScanInv { st with patternEnd := st.patternEnd + 1 } := ⟨h.hd, h.ne, h.ops⟩
  obtain ⟨h1, h1ne⟩ := scanInv_append_preceding h0
  obtain ⟨h2, h2ne⟩ := scanInv_append_pattern h1 h1ne
  split
  · exact headOk_dropLast h2.hd
  · exact h2.hd

/-- Counterexample to claim C1: `parse_query` succeeds on `"a(b)"` with the
three-element list `['+', 'a', 'b']`, whose length is odd and in which the
clause `'b'` is immediately preceded by the clause `'a'` rather than by an
operator. -/
theorem claim1_counterexample :
    parse_query "a(b)".toList = Except.ok [['+'], ['a'], ['b']] ∧
    ¬ Even ([['+'], ['a'], ['b']] : List Str).length := by
  exact ⟨by rfl, by decide⟩

/-- Claim C1 (corrected): on every query on which `parse_query` succeeds,
the first element of the returned list, when the list is nonempty, is an
operator symbol; the even-length and strict operator/clause alternation
parts of the claim do not hold (see the counterexample). -/
theorem claim1_first_element_operator (q : Str) (l : List Str)
    (h : parse_query q = Except.ok l) : headOk l := by
  unfold parse_query at h
  split at h
  · injection h with h
    subst h
    intro p hp
    simp only [List.take, List.mem_singleton] at hp
    simp [hp, opPatterns]
  · simp only [] at h
    cases hr : runScan { query := clean_query q } (List.range (clean_query q).length) with
    | error e => rw [hr] at h; exact absurd h (by simp)
    | ok st =>
      rw [hr] at h
      simp only [] at h
      have hinv0 : ScanInv ({ query := clean_query q } : ScanState) :=
        ⟨by intro p hp; simp at hp, by intro hfalse; simp at hfalse,
          by intro c hc; simp at hc⟩
      have hinv := scanInv_runScan _ hinv0 hr
      split at h
      · exact absurd h (by simp)
      · injection h with h
        exact h ▸ headOk_append_last hinv

/-- Witness for C1: the theorem applied to the parse of `"(a)"`. -/
theorem claim1_witness :
    parse_query "(a)".toList = Except.ok [['+'], ['a']] ∧ headOk [['+'], ['a']] :=
  ⟨by rfl, claim1_first_element_operator "(a)".toList [['+'], ['a']] (by rfl)⟩

/-!
Claim C3: quoted spans and the quote-protected rewriting stages.
-/

lemma span_infix_aux (f : Str → Str) (s : Str) :
    ∀ (spans : List (Nat × Nat)) (cur b e : Nat), (b, e) ∈ spans →
      List.IsInfix (sliceStr s b e) (replace_outside_quotes_aux f s spans cur) := by
  intro spans
  induction spans with
  | nil => intro cur b e hmem; simp at hmem
  | cons hd rest ih =>
    intro cur b e hmem
    obtain ⟨b0, e0⟩ := hd
    rcases List.mem_cons.mp hmem with hmem | hmem
    · obtain ⟨rfl, rfl⟩ := Prod.mk.injEq .. ▸ hmem
      exact ⟨f (sliceStr s cur b), replace_outside_quotes_aux f s rest e,
        by simp [replace_outside_quotes_aux]⟩
    · obtain ⟨u, v, hu⟩ := ih e0 b e hmem
      refine ⟨f (sliceStr s cur b0) ++ sliceStr s b0 e0 ++ u, v, ?_⟩
      simp only [replace_outside_quotes_aux]
      rw [← hu]
      simp [List.append_assoc]

/-- Counterexample to claim C3: the quotes regex used by the cleaning stage
requires a character before the opening quote, so a quoted span starting at
position 0 is not recognized, and the operator word `and` inside it is
rewritten to `+`; `parse_query` then returns the rewritten span as the
clause. -/
theorem claim3_counterexample :
    clean_query "\"and (x\"".toList = "\"+ (x\"".toList ∧
    parse_query "\"and (x\"".toList = Except.ok [['+'], "\"+ (x\"".toList] :=
  ⟨by rfl, by rfl⟩

/-- Claim C3 (corrected): every quoted span that the quotes regex recognizes
(its opening quote must be preceded by a non-backslash character, so a span
opening at the start of the scanned text is not protected) is copied
verbatim — as one contiguous segment — into the output of the operator-word
cleaning and of the keyword-alias substitution; and the character scan does
not split a quoted span or treat its parentheses as boundaries: a scan step
inside a quoted span on any character other than the opening quote symbol
only advances the pattern-end cursor (second conjunct), and the parse of
`"x \"(b\" c"` keeps the span, parenthesis included, in one clause. -/
theorem claim3_quoted_spans_verbatim :
    (∀ (q : Str) (b e : Nat), (b, e) ∈ quotedSpans q →
      List.IsInfix (sliceStr q b e) (clean_query q) ∧
      List.IsInfix (sliceStr q b e) (replace_spires_keywords_with_invenio_keywords q)) ∧
    (∀ (st : ScanState) (pos : Nat), st.insideQuotes = true →
      st.currentQuotesSymbol ≠ some (charAt st.query pos) →
      scanStep st pos = Except.ok { st with patternEnd := pos }) ∧
    parse_query "x \"(b\" c".toList = Except.ok [['+'], "x \"(b\" c".toList] := by
  refine ⟨?_, ?_, by rfl⟩
  · intro q b e hmem
    exact ⟨span_infix_aux clean_operators q (quotedSpans q) 0 b e hmem,
      span_infix_aux replace_all_spires_keywords_in_string q (quotedSpans q) 0 b e hmem⟩
  · intro st pos h1 h2
    unfold scanStep
    simp only []
    rw [if_pos]
    simp [h1, h2]

/-- Witness for C3: the span `(1, 6)` of `"x \"ab\" y"`. -/
theorem claim3_witness :
    (1, 6) ∈ quotedSpans "x \"ab\" y".toList ∧
    List.IsInfix (sliceStr "x \"ab\" y".toList 1 6) (clean_query "x \"ab\" y".toList) ∧
    List.IsInfix (sliceStr "x \"ab\" y".toList 1 6)
      (replace_spires_keywords_with_invenio_keywords "x \"ab\" y".toList) := by
  have hmem : (1, 6) ∈ quotedSpans "x \"ab\" y".toList := by decide
  exact ⟨hmem, (claim3_quoted_spans_verbatim.1 _ 1 6 hmem).1,
    (claim3_quoted_spans_verbatim.1 _ 1 6 hmem).2⟩

/-!
Claim C8: escaped characters in the scan.
-/

/-- The scan step neither failed nor changed the quote/parenthesis mode,
the pattern list, or the recorded quote symbol. -/
def preservesQuoteParenState (st : ScanState) (r : Except ParseError ScanState) : Prop :=
  match r with
  | .error _ => False
  | .ok st' =>
    st'.insideQuotes = st.insideQuotes ∧ st'.insideParentheses = st.insideParentheses ∧
      st'.patterns = st.patterns ∧ st'.currentQuotesSymbol = st.currentQuotesSymbol

/-- Counterexample to claim C8: inside a quoted span the scan's
`previous_character` tracker is not updated (the `continue` skips the
update), so in `"a\"(b"` the quote after the backslash still closes the
span, the following `(` opens a group, and the parse fails with
`MismatchedParentheses` — even though the quote is immediately preceded by
a backslash in the text. -/
theorem claim8_counterexample :
    parse_query "\"a\\\"(b\"".toList = Except.error ParseError.mismatchedParentheses := by
  rfl

/-- Claim C8 (corrected): a quote or parenthesis character whose
scan-time previous character is the backslash never triggers a quote or
parenthesis transition, never touches the pattern list and never raises;
outside quoted spans the scan-time previous character is the preceding text
character, and the backslash and the escaped character stay in the clause
text (the concrete parses); but inside a quoted span the tracker is stale,
so textual backslash-adjacency does not protect the closing quote (see the
counterexample). -/
theorem claim8_escaped_never_transitions :
    (∀ (st : ScanState) (pos : Nat), st.previousCharacter = some '\\' →
      (charAt st.query pos = '"' ∨ charAt st.query pos = '\'' ∨
        charAt st.query pos = '(' ∨ charAt st.query pos = ')') →
      preservesQuoteParenState st (scanStep st pos)) ∧
    parse_query "a\\(b".toList = Except.ok [['+'], "a\\(b".toList] ∧
    parse_query "a\\\" (b)".toList =
      Except.ok [['+'], "a\\\"".toList, ['+'], ['b']] := by
  refine ⟨?_, by rfl, by rfl⟩
  intro st pos hprev hc
  unfold scanStep
  simp only []
  split
  · simp [preservesQuoteParenState]
  · have hact : scanAction { st with patternEnd := pos } pos (charAt st.query pos) =
        .ok (handle_non_white_space_characters { st with patternEnd := pos } pos) := by
      unfold scanAction
      rcases hc with hc | hc | hc | hc <;> rw [hc] <;> simp [hprev]
    rw [hact]
    unfold handle_non_white_space_characters
    simp only []
    split
    · simp [preservesQuoteParenState]
    · unfold assign_default_values_for_operators
      split <;> simp [preservesQuoteParenState]

/-- Witness for C8: the step on the state scanning `"\\("` at position 1
after having processed the backslash. -/
theorem claim8_witness :
    preservesQuoteParenState
      { query := "\\(".toList, previousCharacter := some '\\' }
      (scanStep { query := "\\(".toList, previousCharacter := some '\\' } 1) :=
  claim8_escaped_never_transitions.1
    { query := "\\(".toList, previousCharacter := some '\\' } 1 rfl
    (Or.inr (Or.inr (Or.inl (by rfl))))

/-!
Claim C9: multi-word field expansion.
-/

/-- One re-joined word of the expansion loop: ` op term word`. -/
def expandChunk (op term v : Str) : Str :=
  " ".toList ++ op ++ " ".toList ++ term ++ v

lemma expandWords_const (term op : Str) (h : lowerStr op ≠ "find".toList)
    (ws : List Str) : ∀ (r : Str),
      expandWords term r op ws = r ++ (ws.map (expandChunk op term)).flatten := by
  induction ws with
  | nil => intro r; simp [expandWords]
  | cons w ws ih =>
    intro r
    simp only [expandWords]
    rw [if_neg h, ih]
    simp [expandChunk, List.append_assoc]

/-- Claim C9 (confirmed): the replacement loop splits the multi-word value
into one field clause per word; a `find` introducer re-emits `find` for the
first word and joins the rest with `and`, while `and`/`or`/`not`
introducers re-join every word with the same operator; the regex only
matches the `title:` and `keyword:` field markers, so other field markers
are left unchanged by this stage (concrete cases at the end). -/
theorem claim9_multiword_expansion :
    (∀ (op term w : Str) (ws : List Str),
      (lowerStr op = "find".toList →
        expandWords term [] op (w :: ws) =
          "find ".toList ++ term ++ w ++
            (ws.map (expandChunk "and".toList term)).flatten) ∧
      (lowerStr op ≠ "find".toList →
        expandWords term [] op (w :: ws) =
          expandChunk op term w ++ (ws.map (expandChunk op term)).flatten)) ∧
    expand_search_patterns "find title:these three words".toList =
      "find title:these and title:three and title:words".toList ∧
    expand_search_patterns "or keyword:aa bb".toList =
      "or keyword:aa or keyword:bb".toList ∧
    expand_search_patterns "find author:these three words".toList =
      "find author:these three words".toList := by
  refine ⟨?_, by rfl, by rfl, by rfl⟩
  intro op term w ws
  constructor
  · intro h
    simp only [expandWords]
    rw [if_pos h, expandWords_const term "and".toList (by decide) ws]
  · intro h
    simp only [expandWords]
    rw [if_neg h, expandWords_const term op h ws]
    simp [expandChunk, List.append_assoc]

/-- Witness for C9: the loop applied to `or keyword:` with the two words
`aa` and `bb`. -/
theorem claim9_witness :
    expandWords "keyword:".toList [] "or".toList ["aa".toList, "bb".toList] =
      expandChunk "or".toList "keyword:".toList "aa".toList ++
        (["bb".toList].map (expandChunk "or".toList "keyword:".toList)).flatten :=
  (claim9_multiword_expansion.1 "or".toList "keyword:".toList "aa".toList
    ["bb".toList]).2 (by decide)

/-!
Claims C5, C6, C7: the `convert_query` pipeline.  The keyword-alias stage
is expensive to evaluate, so each needed instance is proved once as a
lemma and the pipeline is then rewritten stage by stage.
-/

/-- `convert_query` on a query that starts with the legacy marker is the
staged pipeline followed by dropping `find `. -/
lemma convert_query_find (inspire : Bool) (q : Str)
    (h : (lowerStr q).take 5 = "find ".toList) :
    convert_query inspire q =
      (expand_search_patterns
        (convert_spires_truncation_to_invenio_truncation
          (convert_spires_exact_author_search_to_invenio_author_search
            (convert_spires_author_search_to_invenio_author_search inspire
              (replace_spires_keywords_with_invenio_keywords
                (convert_spires_date_after_to_invenio_span_query
                  (convert_spires_date_before_to_invenio_span_query q))))))).drop 5 := by
  unfold convert_query
  rw [if_pos h]

/-- A digit character is one of the ten digits. -/
lemma digit_cases {a : Char} (h : a.isDigit = true) :
    a ∈ ['0', '1', '2', '3', '4', '5', '6', '7', '8', '9'] := by
  simp only [Char.isDigit, Bool.and_eq_true, decide_eq_true_eq] at h
  have h1 : 48 ≤ a.toNat := UInt32.le_toNat_of_le (by norm_num) h.1
  have h2 : a.toNat ≤ 57 := UInt32.toNat_le_of_le (by norm_num) h.2
  have ha : Char.ofNat a.toNat = a := Char.ofNat_toNat a
  interval_cases hn : a.toNat <;> simp_all <;> exact ha ▸ (by decide)

lemma digit_isWordChar {a : Char} (h : a.isDigit = true) : isWordChar a = true := by
  have := digit_cases h; fin_cases this <;> decide

lemma digit_pyIsSpace {a : Char} (h : a.isDigit = true) : pyIsSpace a = false := by
  have := digit_cases h; fin_cases this <;> decide

lemma digit_lower_beq_d {a : Char} (h : a.isDigit = true) :
    (a.toLower == 'd') = false := by
  have := digit_cases h; fin_cases this <;> decide

/-- The `date before` shorthand for an arbitrary four-digit year. -/
lemma date_before_param (a b c d : Char) (ha : a.isDigit = true)
    (hb : b.isDigit = true) (hc : c.isDigit = true) (hd : d.isDigit = true) :
    convert_spires_date_before_to_invenio_span_query
        ("find date before ".toList ++ [a, b, c, d]) =
      "find year:0->".toList ++ [a, b, c, d] := by
  unfold convert_spires_date_before_to_invenio_span_query
  simp [subDateAux, matchDateAt, matchDateKeywordAt, matchRelAt, hasBoundary,
    isWordAt, ciMatchAt, ciPrefix, charAt, wsRun, List.takeWhile, List.getD,
    digit_isWordChar ha, digit_isWordChar hb, digit_isWordChar hc, digit_isWordChar hd,
    digit_pyIsSpace ha, digit_pyIsSpace hb, digit_pyIsSpace hc, digit_pyIsSpace hd,
    digit_lower_beq_d ha, ha, hb, hc, hd,
    show pyIsSpace ' ' = true from by decide,
    show pyIsSpace 'a' = false from by decide,
    show pyIsSpace 'b' = false from by decide,
    show isWordChar 'f' = true from by decide,
    show isWordChar 'i' = true from by decide,
    show isWordChar 'n' = true from by decide,
    show isWordChar 'd' = true from by decide,
    show isWordChar 'a' = true from by decide,
    show isWordChar 't' = true from by decide,
    show isWordChar 'e' = true from by decide,
    show isWordChar 'b' = true from by decide,
    show isWordChar 'o' = true from by decide,
    show isWordChar 'r' = true from by decide,
    show isWordChar ' ' = false from by decide]

/-- The `date after` shorthand for an arbitrary four-digit year. -/
lemma date_after_param (a b c d : Char) (ha : a.isDigit = true)
    (hb : b.isDigit = true) (hc : c.isDigit = true) (hd : d.isDigit = true) :
    convert_spires_date_after_to_invenio_span_query
        ("find date after ".toList ++ [a, b, c, d]) =
      "find year:".toList ++ [a, b, c, d] ++ "->9999".toList := by
  unfold convert_spires_date_after_to_invenio_span_query
  simp [subDateAux, matchDateAt, matchDateKeywordAt, matchRelAt, hasBoundary,
    isWordAt, ciMatchAt, ciPrefix, charAt, wsRun, List.takeWhile, List.getD,
    digit_isWordChar ha, digit_isWordChar hb, digit_isWordChar hc, digit_isWordChar hd,
    digit_pyIsSpace ha, digit_pyIsSpace hb, digit_pyIsSpace hc, digit_pyIsSpace hd,
    digit_lower_beq_d ha, ha, hb, hc, hd,
    show pyIsSpace ' ' = true from by decide,
    show pyIsSpace 'a' = false from by decide,
    show isWordChar 'f' = true from by decide,
    show isWordChar 'i' = true from by decide,
    show isWordChar 'n' = true from by decide,
    show isWordChar 'd' = true from by decide,
    show isWordChar 'a' = true from by decide,
    show isWordChar 't' = true from by decide,
    show isWordChar 'e' = true from by decide,
    show isWordChar 'r' = true from by decide,
    show isWordChar ' ' = false from by decide]

lemma kwStage1990 :
    replace_spires_keywords_with_invenio_keywords "FIND year:0->1990".toList =
      "FIND year:0->1990".toList := by rfl

lemma kwStage9999 :
    replace_spires_keywords_with_invenio_keywords "FIND year:1990->9999".toList =
      "FIND year:1990->9999".toList := by rfl

lemma kwStageEa :
    replace_spires_keywords_with_invenio_keywords "find ea ellis".toList =
      "find ellis".toList := by rfl

lemma kwStageExactAuthor :
    replace_spires_keywords_with_invenio_keywords "find exact-author ellis".toList =
      "find ellis".toList := by rfl

lemma kwStageAEllis :
    replace_spires_keywords_with_invenio_keywords "FIND A ellis".toList =
      "FIND author:ellis".toList := by rfl

lemma kwStageDateAlias :
    replace_spires_keywords_with_invenio_keywords "find date before 1990".toList =
      "find 269__c:before 1990".toList := by rfl

/-- Claim C5 (confirmed): the date shorthand `date`/`d` with `before`/`<`
and a four-digit year becomes `year:0->YEAR` (minimum representable year 0
as lower bound), and with `after`/`>` becomes `year:YEAR->9999` (maximum
representable year 9999); the rewriting runs before keyword aliasing —
aliasing alone would instead produce `269__c:before 1990` (fifth
conjunct) — so `convert_query` on `"FIND DATE BEFORE 1990"` yields the
year-span clause bounded above inclusively by 1990.  The last conjunct
settles the shorthand for an arbitrary four-digit year. -/
theorem claim5_date_shorthand (inspire : Bool) :
    convert_query inspire "FIND DATE BEFORE 1990".toList = "year:0->1990".toList ∧
    convert_query inspire "FIND DATE AFTER 1990".toList = "year:1990->9999".toList ∧
    convert_spires_date_before_to_invenio_span_query "find d < 2005".toList =
      "find year:0->2005".toList ∧
    convert_spires_date_after_to_invenio_span_query "find d > 2005".toList =
      "find year:2005->9999".toList ∧
    replace_spires_keywords_with_invenio_keywords "find date before 1990".toList =
      "find 269__c:before 1990".toList ∧
    (∀ a b c d : Char, a.isDigit = true → b.isDigit = true → c.isDigit = true →
      d.isDigit = true →
      convert_spires_date_before_to_invenio_span_query
          ("find date before ".toList ++ [a, b, c, d]) =
        "find year:0->".toList ++ [a, b, c, d] ∧
      convert_spires_date_after_to_invenio_span_query
          ("find date after ".toList ++ [a, b, c, d]) =
        "find year:".toList ++ [a, b, c, d] ++ "->9999".toList) := by
  refine ⟨?_, ?_, by rfl, by rfl, kwStageDateAlias,
    fun a b c d ha hb hc hd =>
      ⟨date_before_param a b c d ha hb hc hd, date_after_param a b c d ha hb hc hd⟩⟩
  · rw [convert_query_find inspire _ (by rfl),
      show convert_spires_date_before_to_invenio_span_query
          "FIND DATE BEFORE 1990".toList = "FIND year:0->1990".toList from by rfl,
      show convert_spires_date_after_to_invenio_span_query
          "FIND year:0->1990".toList = "FIND year:0->1990".toList from by rfl,
      kwStage1990,
      show convert_spires_author_search_to_invenio_author_search inspire
          "FIND year:0->1990".toList = "FIND year:0->1990".toList from by
        cases inspire <;> rfl,
      show convert_spires_exact_author_search_to_invenio_author_search
          "FIND year:0->1990".toList = "FIND year:0->1990".toList from by rfl,
      show convert_spires_truncation_to_invenio_truncation
          "FIND year:0->1990".toList = "FIND year:0->1990".toList from by rfl,
      show expand_search_patterns "FIND year:0->1990".toList =
          "FIND year:0->1990".toList from by rfl]
    rfl
  · rw [convert_query_find inspire _ (by rfl),
      show convert_spires_date_before_to_invenio_span_query
          "FIND DATE AFTER 1990".toList = "FIND DATE AFTER 1990".toList from by rfl,
      show convert_spires_date_after_to_invenio_span_query
          "FIND DATE AFTER 1990".toList = "FIND year:1990->9999".toList from by rfl,
      kwStage9999,
      show convert_spires_author_search_to_invenio_author_search inspire
          "FIND year:1990->9999".toList = "FIND year:1990->9999".toList from by
        cases inspire <;> rfl,
      show convert_spires_exact_author_search_to_invenio_author_search
          "FIND year:1990->9999".toList = "FIND year:1990->9999".toList from by rfl,
      show convert_spires_truncation_to_invenio_truncation
          "FIND year:1990->9999".toList = "FIND year:1990->9999".toList from by rfl,
      show expand_search_patterns "FIND year:1990->9999".toList =
          "FIND year:1990->9999".toList from by rfl]
    rfl

/-- Witness for C5: the arbitrary-year conjunct applied to 2007. -/
theorem claim5_witness :
    convert_spires_date_before_to_invenio_span_query
        ("find date before ".toList ++ ['2', '0', '0', '7']) =
      "find year:0->".toList ++ ['2', '0', '0', '7'] :=
  ((claim5_date_shorthand false).2.2.2.2.2 '2' '0' '0' '7'
    (by decide) (by decide) (by decide) (by decide)).1

/-- Claim C6 (code bug): the source comments intend `ea` / `exact-author`
to become the pseudo keyword `exactauthor:`, converted later into a quoted
`author:"..."` phrase, but the Python dict literal
`_SPIRES_TO_INVENIO_KEYWORDS_MATCHINGS` repeats both keys in its
delete-as-noise block and the last duplicate wins: both keywords are
replaced by a bare space, so `convert_query` deletes them and never
produces an author phrase (the text falls through to a default search). -/
theorem claim6_exact_author_keyword_shadowed (inspire : Bool) :
    convert_query inspire "find ea ellis".toList = "ellis".toList ∧
    convert_query inspire "find exact-author ellis".toList = "ellis".toList ∧
    (spiresToInvenioKeywords.filter
      (fun p => p.1 = " ea " ∨ p.1 = " exact-author ")) =
      [(" ea ", " "), (" exact-author ", " ")] := by
  refine ⟨?_, ?_, by rfl⟩
  · rw [convert_query_find inspire _ (by rfl),
      show convert_spires_date_before_to_invenio_span_query
          "find ea ellis".toList = "find ea ellis".toList from by rfl,
      show convert_spires_date_after_to_invenio_span_query
          "find ea ellis".toList = "find ea ellis".toList from by rfl,
      kwStageEa,
      show convert_spires_author_search_to_invenio_author_search inspire
          "find ellis".toList = "find ellis".toList from by cases inspire <;> rfl,
      show convert_spires_exact_author_search_to_invenio_author_search
          "find ellis".toList = "find ellis".toList from by rfl,
      show convert_spires_truncation_to_invenio_truncation
          "find ellis".toList = "find ellis".toList from by rfl,
      show expand_search_patterns "find ellis".toList = "find ellis".toList
        from by rfl]
    rfl
  · rw [convert_query_find inspire _ (by rfl),
      show convert_spires_date_before_to_invenio_span_query
          "find exact-author ellis".toList = "find exact-author ellis".toList
        from by rfl,
      show convert_spires_date_after_to_invenio_span_query
          "find exact-author ellis".toList = "find exact-author ellis".toList
        from by rfl,
      kwStageExactAuthor,
      show convert_spires_author_search_to_invenio_author_search inspire
          "find ellis".toList = "find ellis".toList from by cases inspire <;> rfl,
      show convert_spires_exact_author_search_to_invenio_author_search
          "find ellis".toList = "find ellis".toList from by rfl,
      show convert_spires_truncation_to_invenio_truncation
          "find ellis".toList = "find ellis".toList from by rfl,
      show expand_search_patterns "find ellis".toList = "find ellis".toList
        from by rfl]
    rfl

/-- Counterexample to claim C7: `convert_query` on `"FIND A ellis"`
returns the plain clause `author:ellis`, which contains no `*`: no
wildcard-suffixed author variant is produced for a bare surname. -/
theorem claim7_counterexample :
    convert_query false "FIND A ellis".toList = "author:ellis".toList ∧
    ("author:ellis".toList).contains '*' = false := by
  refine ⟨?_, by rfl⟩
  rw [convert_query_find false _ (by rfl),
    show convert_spires_date_before_to_invenio_span_query
        "FIND A ellis".toList = "FIND A ellis".toList from by rfl,
    show convert_spires_date_after_to_invenio_span_query
        "FIND A ellis".toList = "FIND A ellis".toList from by rfl,
    kwStageAEllis,
    show convert_spires_author_search_to_invenio_author_search false
        "FIND author:ellis".toList = "FIND author:ellis".toList from by rfl,
    show convert_spires_exact_author_search_to_invenio_author_search
        "FIND author:ellis".toList = "FIND author:ellis".toList from by rfl,
    show convert_spires_truncation_to_invenio_truncation
        "FIND author:ellis".toList = "FIND author:ellis".toList from by rfl,
    show expand_search_patterns "FIND author:ellis".toList =
        "FIND author:ellis".toList from by rfl]
  rfl

/-- Claim C7 (corrected): `convert_query` on `"FIND A ellis"` aliases the
single-letter author keyword to `author:`, but the bare surname matches
none of the five author patterns of `_re_author_match` (each requires a
comma or a second word), so no expansion — in particular no middle-name
branch — fires, and the result is exactly the unexpanded clause
`author:ellis` for either site flag. -/
theorem claim7_bare_surname_unexpanded (inspire : Bool) :
    convert_query inspire "FIND A ellis".toList = "author:ellis".toList ∧
    matchAuthorAt "FIND author:ellis".toList 5 = none := by
  refine ⟨?_, by rfl⟩
  rw [convert_query_find inspire _ (by rfl),
    show convert_spires_date_before_to_invenio_span_query
        "FIND A ellis".toList = "FIND A ellis".toList from by rfl,
    show convert_spires_date_after_to_invenio_span_query
        "FIND A ellis".toList = "FIND A ellis".toList from by rfl,
    kwStageAEllis,
    show convert_spires_author_search_to_invenio_author_search inspire
        "FIND author:ellis".toList = "FIND author:ellis".toList from by
      cases inspire <;> rfl,
    show convert_spires_exact_author_search_to_invenio_author_search
        "FIND author:ellis".toList = "FIND author:ellis".toList from by rfl,
    show convert_spires_truncation_to_invenio_truncation
        "FIND author:ellis".toList = "FIND author:ellis".toList from by rfl,
    show expand_search_patterns "FIND author:ellis".toList =
        "FIND author:ellis".toList from by rfl]
  rfl

end InvenioQP
